import Mathlib

/-!
Shallow embedding of `src/overlay/Peer.cpp` (early stellar-core peer-session
protocol core): the per-connection handshake state machine, message dispatch,
content-addressed fetch responder, flood hand-off and peer-discovery exchange.

Each C++ handler is embedded as a pure function
`Env → Peer → StellarMessage → Peer × List Effect` where `Env` supplies the
results of calls into external collaborators (Consensus Gateway / Herder,
Peer Directory / Database, crypto hash) and `Effect` records, in order, every
outbound message and collaborator call the handler performs.
-/

namespace StellarPeer

/-- 32-byte content hash (`uint256` in the source), abstracted to its value. -/
abbrev Uint256 := Nat

/-- Message kinds of the wire envelope, mirroring the `MessageType` cases that
`Peer::recvMessage` switches over. -/
inductive MessageType where
  | ERROR_MSG
  | HELLO
  | DONT_HAVE
  | GET_PEERS
  | PEERS
  | GET_TX_SET
  | TX_SET
  | GET_VALIDATIONS
  | VALIDATIONS
  | TRANSACTION
  | GET_FBA_QUORUMSET
  | FBA_QUORUMSET
  | FBA_MESSAGE
  | JSON_TRANSACTION
deriving DecidableEq, Repr

/-- Modelled from the spec: the generated XDR `Hello` body
(`generated/StellarXDR.h` is not in src). Spec section 3: Hello carries
protocolVersion, versionString and listeningPort; `Peer::recvHello` reads
`protocolVersion`, `versionStr` and `port`. -/
structure HelloBody where
  protocolVersion : Nat
  versionStr : String
  port : Int
deriving DecidableEq, Repr

/-- Modelled from the spec: the XDR `PeerAddress` (ip: 4-byte array, port).
The four octets of `xdr::opaque_array<4U>` are modelled as four Nat fields
(each a byte value). -/
structure IpArray where
  b0 : Nat
  b1 : Nat
  b2 : Nat
  b3 : Nat
deriving DecidableEq, Repr

/-- Modelled from the spec: one entry of the `Peers` message, spec section 3:
(ipv4: 4 bytes, port: u32). Ports are kept as `Int` (the C++ side moves them
through `int` database ports). -/
structure PeerAddress where
  ip : IpArray
  port : Int
deriving DecidableEq, Repr

/-- Abstract transaction-set payload as it appears in a `TX_SET` message
(the XDR form written by `TxSetFrame::toXDR`). -/
abbrev TxSetXDR := Nat

/-- Modelled from the spec: `TxSetFrame` (class not in src) abstracted to its
canonical serialized form; `toXDR` exposes it. -/
structure TxSetFrame where
  xdrRep : TxSetXDR
deriving DecidableEq, Repr

def TxSetFrame.toXDR (t : TxSetFrame) : TxSetXDR := t.xdrRep

/-- `std::make_shared<TxSetFrame>(msg.txSet())`: construct the frame from the
wire payload. -/
def TxSetFrame.ofXDR (x : TxSetXDR) : TxSetFrame := ⟨x⟩

/-- Abstract FBA quorum-set payload (`FBAQuorumSet`). -/
abbrev FBAQuorumSet := Nat

/-- Abstract wire transaction payload (`TransactionEnvelope`). -/
abbrev TransactionEnvelope := Nat

/-- Abstract deserialized transaction (`TransactionFramePtr`). -/
abbrev TransactionFrame := Nat

/-- Modelled from the spec: the statement inside an FBA envelope; the code
reads `envelope.statement.slotIndex` (spec: ConsensusEnvelope carries a
slotIndex and an opaque statement body). -/
structure FBAStatement where
  slotIndex : Nat
  body : Nat
deriving DecidableEq, Repr

/-- Modelled from the spec: `FBAEnvelope` = statement plus signature blob. -/
structure FBAEnvelope where
  statement : FBAStatement
  signature : Nat
deriving DecidableEq, Repr

/-- Modelled from the spec: the `StellarMessage` XDR tagged union
(`generated/StellarXDR.h` is not in src). Spec section 3 fixes each variant's
payload; in particular GetTxSet and GetQuorumSet each carry a single 32-byte
contentHash, so the `GET_FBA_QUORUMSET` arm holds one hash field — the field
written through the `txSetHash()` setter in `Peer::sendGetQuorumSet` and read
through the `qSetHash()` accessor in `Peer::recvGetFBAQuorumSet`. -/
inductive StellarMessage where
  | errorMsg (e : Nat)
  | hello (h : HelloBody)
  | dontHave (t : MessageType) (reqHash : Uint256)
  | getPeers
  | peers (l : List PeerAddress)
  | getTxSet (h : Uint256)
  | txSet (t : TxSetXDR)
  | getValidations (v : Nat)
  | validations (v : Nat)
  | transaction (t : TransactionEnvelope)
  | getFBAQuorumSet (h : Uint256)
  | fbaQuorumSet (q : FBAQuorumSet)
  | fbaMessage (e : FBAEnvelope)
  | jsonTransaction (j : Nat)
deriving DecidableEq, Repr

/-- The union discriminant, `msg.type()`. -/
def StellarMessage.type : StellarMessage → MessageType
  | .errorMsg _ => .ERROR_MSG
  | .hello _ => .HELLO
  | .dontHave _ _ => .DONT_HAVE
  | .getPeers => .GET_PEERS
  | .peers _ => .PEERS
  | .getTxSet _ => .GET_TX_SET
  | .txSet _ => .TX_SET
  | .getValidations _ => .GET_VALIDATIONS
  | .validations _ => .VALIDATIONS
  | .transaction _ => .TRANSACTION
  | .getFBAQuorumSet _ => .GET_FBA_QUORUMSET
  | .fbaQuorumSet _ => .FBA_QUORUMSET
  | .fbaMessage _ => .FBA_MESSAGE
  | .jsonTransaction _ => .JSON_TRANSACTION

/-- Accessor `msg.hello()`; only dispatched on the HELLO arm. -/
def StellarMessage.helloBody : StellarMessage → HelloBody
  | .hello h => h
  | _ => ⟨0, "", 0⟩

/-- Accessor `msg.dontHave().type`. -/
def StellarMessage.dontHaveType : StellarMessage → MessageType
  | .dontHave t _ => t
  | _ => .ERROR_MSG

/-- Accessor `msg.dontHave().reqHash`. -/
def StellarMessage.dontHaveReqHash : StellarMessage → Uint256
  | .dontHave _ h => h
  | _ => 0

/-- Accessor `msg.peers()`. -/
def StellarMessage.peersList : StellarMessage → List PeerAddress
  | .peers l => l
  | _ => []

/-- Accessor `msg.txSetHash()` (the GET_TX_SET hash field). -/
def StellarMessage.txSetHash : StellarMessage → Uint256
  | .getTxSet h => h
  | _ => 0

/-- Accessor `msg.txSet()`. -/
def StellarMessage.txSetBody : StellarMessage → TxSetXDR
  | .txSet t => t
  | _ => 0

/-- Accessor `msg.transaction()`. -/
def StellarMessage.transactionBody : StellarMessage → TransactionEnvelope
  | .transaction t => t
  | _ => 0

/-- Accessor `msg.qSetHash()`: reads the single contentHash field of the
GET_FBA_QUORUMSET arm (see the union's doc comment). -/
def StellarMessage.qSetHash : StellarMessage → Uint256
  | .getFBAQuorumSet h => h
  | _ => 0

/-- Accessor `msg.qSet()`. -/
def StellarMessage.qSetBody : StellarMessage → FBAQuorumSet
  | .fbaQuorumSet q => q
  | _ => 0

/-- Accessor `msg.fbaMessage()`. -/
def StellarMessage.fbaEnvelope : StellarMessage → FBAEnvelope
  | .fbaMessage e => e
  | _ => ⟨⟨0, 0⟩, 0⟩

/-- Modelled from the spec: the `PeerState` enum lives in `Peer.h` (not in
src). Spec section 3: ordered {Connecting, Connected, HandshakeComplete}
(= GOT_HELLO), plus terminal Dropped which is NOT below HandshakeComplete in
the ordinal comparison gating non-handshake traffic. -/
inductive PeerState where
  | CONNECTING
  | CONNECTED
  | GOT_HELLO
  | DROPPED
deriving DecidableEq, Repr

/-- The numeric value used by the ordinal comparison `mState < GOT_HELLO`. -/
def PeerState.ord : PeerState → Nat
  | .CONNECTING => 0
  | .CONNECTED => 1
  | .GOT_HELLO => 2
  | .DROPPED => 3

/-- `PeerRole`, fixed at construction. -/
inductive PeerRole where
  | INITIATOR
  | ACCEPTOR
deriving DecidableEq, Repr

/-- The per-session state that `Peer.cpp` reads or writes. In the C++
constructor `mRemoteProtocolVersion` and `mRemoteVersion` are left
uninitialized; `Peer.init` below takes their indeterminate initial values as
arguments. -/
structure Peer where
  mState : PeerState
  mRole : PeerRole
  mRemoteProtocolVersion : Nat
  mRemoteVersion : String
  mRemoteListeningPort : Int
deriving DecidableEq, Repr

/-- `Peer::Peer(app, role)`: state starts CONNECTED for an acceptor,
CONNECTING for an initiator (connector); `mRemoteListeningPort` starts -1.
`pv`/`vs` stand for the indeterminate contents of the uninitialized remote
identity members. (The deferred `sendHello` the acceptor schedules on the
event loop is outside this per-message model.) -/
def Peer.init (role : PeerRole) (pv : Nat) (vs : String) : Peer :=
  { mState := if role = .ACCEPTOR then .CONNECTED else .CONNECTING
    mRole := role
    mRemoteProtocolVersion := pv
    mRemoteVersion := vs
    mRemoteListeningPort := -1 }

/-- Modelled from the spec: `drop()` is declared in `Peer.h` and implemented
by the transport subclass (not in src); spec sections 3 and 4.1: it moves the
session to the terminal Dropped state. -/
def Peer.drop (p : Peer) : Peer := { p with mState := .DROPPED }

/-- One observable action of a handler, in execution order: an outbound
message send, or a call into an external collaborator (Consensus
Gateway / Herder, Flood Coordinator / OverlayGateway, Peer Directory /
Database). -/
inductive Effect where
  | sendMsg (m : StellarMessage)
  | fetchTxSet (h : Uint256) (forceRefresh : Bool)
  | fetchFBAQuorumSet (h : Uint256) (forceRefresh : Bool)
  | doesntHaveTxSet (h : Uint256)
  | doesntHaveFBAQuorumSet (h : Uint256)
  | herderRecvTxSet (t : TxSetFrame)
  | herderRecvFBAQuorumSet (q : FBAQuorumSet)
  | herderRecvTransaction (t : TransactionFrame)
  | herderRecvFBAEnvelope (e : FBAEnvelope)
  | recvFloodedMsg (h : Uint256) (m : StellarMessage) (slotIndex : Nat)
  | broadcastMessage (m : StellarMessage)
  | addPeer (ip : String) (port : Int)
  | loadPeers (limit : Nat)
deriving DecidableEq, Repr

/-- Results of the external calls whose return values steer control flow in
`Peer.cpp` (Herder store lookups, transaction deserialization and admission,
the Peer Directory query, and the crypto hash `sha512_256(xdr_to_msg(env))`).
-/
structure Env where
  fetchTxSet : Uint256 → Bool → Option TxSetFrame
  fetchFBAQuorumSet : Uint256 → Bool → Option FBAQuorumSet
  makeTransactionFromWire : TransactionEnvelope → Option TransactionFrame
  herderRecvTransaction : TransactionFrame → Bool
  loadPeers : Nat → List (String × Int)
  hashEnvelope : FBAEnvelope → Uint256

/-- Outcome of dispatching one message: normal completion with the updated
session and the ordered effect trace, or `assertFailed` for `assert(false)`
(whole-process abort, not a per-session condition). -/
inductive HandlerResult where
  | ok (p : Peer) (effs : List Effect)
  | assertFailed
deriving DecidableEq, Repr

/-! ### String helpers used by the peer-discovery exchange

`Peer::ipFromStr` tokenizes with `std::getline(ss, item, '.')` and converts
each token with `atoi`; `Peer::recvPeers` formats the four received octets
back into a dotted string with `stringstream <<`. -/

/-- Tokenizer core for `std::getline(stream, item, dot)`: splits the
remaining characters at each dot. A dot at end of input terminates the
current token without starting a new one (the next `getline` call finds the
stream already at EOF and fails), matching `std::getline` semantics. -/
def splitDotGo : List Char → List Char → List (List Char)
  | [], cur => [cur.reverse]
  | c :: rest, cur =>
    if c = '.' then
      cur.reverse :: (if rest = [] then [] else splitDotGo rest [])
    else
      splitDotGo rest (c :: cur)

/-- All tokens `std::getline(ss, item, dot)` yields on the given characters:
none on empty input (the first call immediately fails at EOF). -/
def splitDot (cs : List Char) : List (List Char) :=
  if cs = [] then [] else splitDotGo cs []

/-- Decimal digit run accumulator for `atoi`. -/
def atoiDigits : List Char → Nat → Nat
  | [], acc => acc
  | c :: cs, acc =>
    if c.isDigit then atoiDigits cs (acc * 10 + (c.toNat - 48)) else acc

/-- C `atoi`: skip leading whitespace, optional sign, then leading decimal
digits; anything else stops the scan (empty scan yields 0). Mathematical
value; `int` overflow is not modelled (the inputs of interest are octets). -/
def atoi (s : String) : Int :=
  let cs := s.data.dropWhile fun c =>
    c = ' ' ∨ c = '\t' ∨ c = '\n' ∨ c = '\x0b' ∨ c = '\x0c' ∨ c = '\r'
  match cs with
  | '-' :: rest => -(atoiDigits rest 0 : Int)
  | '+' :: rest => (atoiDigits rest 0 : Int)
  | _ => (atoiDigits cs 0 : Int)

/-- The byte stored by `ret[n] = atoi(item.c_str())`: conversion of the `int`
to the unsigned 8-bit XDR octet is reduction mod 256. Tokens past the fourth
are not stored; missing tokens leave the XDR octet zero-initialized. -/
def ipTokenByte (items : List String) (i : Nat) : Nat :=
  match items.get? i with
  | some s => ((atoi s) % 256).toNat
  | none => 0

/-- `Peer::ipFromStr`: tokenize at dots, store `atoi` of the first four
tokens into the octet array, and report success exactly when four tokens were
produced (the source returns true iff the loop counter reached 4). -/
def ipFromStr (ipStr : String) : Bool × IpArray :=
  let items := (splitDot ipStr.data).map fun cs => String.mk cs
  (decide (4 ≤ items.length),
   ⟨ipTokenByte items 0, ipTokenByte items 1, ipTokenByte items 2,
    ipTokenByte items 3⟩)

/-- The dotted-quad string `recvPeers` builds with
`ip << (int)peer.ip[0] << "." << ...`. -/
def ipToStr (a : IpArray) : String :=
  Nat.repr a.b0 ++ "." ++ Nat.repr a.b1 ++ "." ++ Nat.repr a.b2 ++ "." ++
    Nat.repr a.b3

/-! ### Outbound send helpers (`Peer::send*`) -/

/-- `Peer::sendDontHave(type, itemID)`. -/
def sendDontHave (t : MessageType) (itemID : Uint256) : List Effect :=
  [.sendMsg (.dontHave t itemID)]

/-- `Peer::sendFBAQuorumSet(qSet)`. -/
def sendFBAQuorumSet (qSet : FBAQuorumSet) : List Effect :=
  [.sendMsg (.fbaQuorumSet qSet)]

/-- `Peer::sendGetTxSet(setID)`. -/
def sendGetTxSet (setID : Uint256) : List Effect :=
  [.sendMsg (.getTxSet setID)]

/-- `Peer::sendGetQuorumSet(setID)`: builds a GET_FBA_QUORUMSET message and
writes `setID` into its hash field (the `txSetHash()` setter; see the
`StellarMessage` doc comment for the spec-modelled union arm). -/
def sendGetQuorumSet (setID : Uint256) : List Effect :=
  [.sendMsg (.getFBAQuorumSet setID)]

/-- One entry of the outgoing Peers message, as `sendPeers` fills it: octets
from `ipFromStr` (whose Boolean result the source discards), port copied. -/
def mkPeerEntry (pr : String × Int) : PeerAddress :=
  { ip := (ipFromStr pr.1).2, port := pr.2 }

/-- `Peer::sendPeers`: query the directory with limit 50, then serialize
every returned entry — the message is sized to `peerList.size()` with no
further cap, and `ipFromStr` failures are ignored. -/
def sendPeers (env : Env) : List Effect :=
  let peerList := env.loadPeers 50
  [.loadPeers 50, .sendMsg (.peers (peerList.map mkPeerEntry))]

/-! ### Per-kind receive handlers (`Peer::recv*`) -/

/-- `Peer::recvError`: TODO.3 in the source — explicit no-op. -/
def Peer.recvError (p : Peer) (_msg : StellarMessage) : Peer × List Effect :=
  (p, [])

/-- `Peer::recvHello`: unconditionally overwrite the three remote identity
fields from the message and set state to GOT_HELLO. -/
def Peer.recvHello (p : Peer) (msg : StellarMessage) : Peer × List Effect :=
  ({ p with
      mRemoteProtocolVersion := msg.helloBody.protocolVersion
      mRemoteVersion := msg.helloBody.versionStr
      mRemoteListeningPort := msg.helloBody.port
      mState := .GOT_HELLO }, [])

/-- `Peer::recvDontHave`: notify the Herder for TX_SET and FBA_QUORUMSET
kinds; VALIDATIONS and everything else fall to the default no-op. -/
def Peer.recvDontHave (p : Peer) (msg : StellarMessage) :
    Peer × List Effect :=
  match msg.dontHaveType with
  | .TX_SET => (p, [.doesntHaveTxSet msg.dontHaveReqHash])
  | .FBA_QUORUMSET => (p, [.doesntHaveFBAQuorumSet msg.dontHaveReqHash])
  | _ => (p, [])

/-- `Peer::recvGetPeers`: delegate to `sendPeers`. -/
def Peer.recvGetPeers (env : Env) (p : Peer) (_msg : StellarMessage) :
    Peer × List Effect :=
  (p, sendPeers env)

/-- `Peer::recvPeers`: for every entry, format the four octets as a dotted
string and hand it with the port to `Database::addPeer`. No entry is skipped
and the session is never dropped here. -/
def Peer.recvPeers (p : Peer) (msg : StellarMessage) : Peer × List Effect :=
  (p, msg.peersList.map fun peer => .addPeer (ipToStr peer.ip) peer.port)

/-- `Peer::recvGetTxSet`: one `fetchTxSet(hash, false)` lookup; on a hit send
the TX_SET payload, on a miss send DONT_HAVE{TX_SET, hash}. -/
def Peer.recvGetTxSet (env : Env) (p : Peer) (msg : StellarMessage) :
    Peer × List Effect :=
  match env.fetchTxSet msg.txSetHash false with
  | some txSet =>
    (p, [.fetchTxSet msg.txSetHash false, .sendMsg (.txSet txSet.toXDR)])
  | none =>
    (p, .fetchTxSet msg.txSetHash false ::
      sendDontHave .TX_SET msg.txSetHash)

/-- `Peer::recvTxSet`: construct the frame and push it to the Herder. -/
def Peer.recvTxSet (p : Peer) (msg : StellarMessage) : Peer × List Effect :=
  (p, [.herderRecvTxSet (TxSetFrame.ofXDR msg.txSetBody)])

/-- `Peer::recvTransaction`: deserialize; when that succeeds, call the
Herder's admission check and, exactly when it accepts, rebroadcast the
original wire message via `OverlayGateway::broadcastMessage`. When
deserialization fails nothing at all happens. -/
def Peer.recvTransaction (env : Env) (p : Peer) (msg : StellarMessage) :
    Peer × List Effect :=
  match env.makeTransactionFromWire msg.transactionBody with
  | some transaction =>
    if env.herderRecvTransaction transaction then
      (p, [.herderRecvTransaction transaction, .broadcastMessage msg])
    else
      (p, [.herderRecvTransaction transaction])
  | none => (p, [])

/-- `Peer::recvGetFBAQuorumSet`: one `fetchFBAQuorumSet(qSetHash, false)`
lookup; hit sends the quorum set, miss sends DONT_HAVE{FBA_QUORUMSET, hash}.
-/
def Peer.recvGetFBAQuorumSet (env : Env) (p : Peer) (msg : StellarMessage) :
    Peer × List Effect :=
  match env.fetchFBAQuorumSet msg.qSetHash false with
  | some qSet =>
    (p, .fetchFBAQuorumSet msg.qSetHash false :: sendFBAQuorumSet qSet)
  | none =>
    (p, .fetchFBAQuorumSet msg.qSetHash false ::
      sendDontHave .FBA_QUORUMSET msg.qSetHash)

/-- `Peer::recvFBAQuorumSet`: push the received quorum set to the Herder. -/
def Peer.recvFBAQuorumSet (p : Peer) (msg : StellarMessage) :
    Peer × List Effect :=
  (p, [.herderRecvFBAQuorumSet msg.qSetBody])

/-- `Peer::recvFBAMessage`: hash the envelope's serialization, offer the
original wire message to the Flood Coordinator
(`OverlayGateway::recvFloodedMsg`, origin = this session), then
unconditionally deliver the envelope to the Herder. -/
def Peer.recvFBAMessage (env : Env) (p : Peer) (msg : StellarMessage) :
    Peer × List Effect :=
  let envelope := msg.fbaEnvelope
  let envHash := env.hashEnvelope envelope
  (p, [.recvFloodedMsg envHash msg envelope.statement.slotIndex,
       .herderRecvFBAEnvelope envelope])

/-- `Peer::recvGetValidations`: TODO.3 — explicit no-op. -/
def Peer.recvGetValidations (p : Peer) (_msg : StellarMessage) :
    Peer × List Effect :=
  (p, [])

/-- `Peer::recvValidations`: TODO.3 — explicit no-op. -/
def Peer.recvValidations (p : Peer) (_msg : StellarMessage) :
    Peer × List Effect :=
  (p, [])

/-- `Peer::recvMessage(StellarMessage const&)`: the handshake gate
(`mState < GOT_HELLO && type != HELLO` drops the session with no reply),
then the per-kind switch. The JSON_TRANSACTION case is `assert(false)`:
whole-process abort. -/
def Peer.recvMessage (env : Env) (p : Peer) (stellarMsg : StellarMessage) :
    HandlerResult :=
  if p.mState.ord < PeerState.GOT_HELLO.ord ∧ stellarMsg.type ≠ .HELLO then
    .ok p.drop []
  else
    match stellarMsg.type with
    | .ERROR_MSG => let r := p.recvError stellarMsg; .ok r.1 r.2
    | .HELLO => let r := p.recvHello stellarMsg; .ok r.1 r.2
    | .DONT_HAVE => let r := p.recvDontHave stellarMsg; .ok r.1 r.2
    | .GET_PEERS => let r := p.recvGetPeers env stellarMsg; .ok r.1 r.2
    | .PEERS => let r := p.recvPeers stellarMsg; .ok r.1 r.2
    | .GET_TX_SET => let r := p.recvGetTxSet env stellarMsg; .ok r.1 r.2
    | .TX_SET => let r := p.recvTxSet stellarMsg; .ok r.1 r.2
    | .GET_VALIDATIONS =>
      let r := p.recvGetValidations stellarMsg; .ok r.1 r.2
    | .VALIDATIONS => let r := p.recvValidations stellarMsg; .ok r.1 r.2
    | .TRANSACTION => let r := p.recvTransaction env stellarMsg; .ok r.1 r.2
    | .GET_FBA_QUORUMSET =>
      let r := p.recvGetFBAQuorumSet env stellarMsg; .ok r.1 r.2
    | .FBA_QUORUMSET => let r := p.recvFBAQuorumSet stellarMsg; .ok r.1 r.2
    | .FBA_MESSAGE => let r := p.recvFBAMessage env stellarMsg; .ok r.1 r.2
    | .JSON_TRANSACTION => .assertFailed

end StellarPeer

namespace StellarPeer

/-! ### Concrete fixtures used by the witness theorems -/

/-- A concrete collaborator environment: the store holds a TxSet only under
hash 7 and a quorum set only under hash 9; wire payload 5 deserializes to
transaction 55, which the Herder admits; the directory knows two peers. -/
def envW : Env where
  fetchTxSet := fun h _ => if h = 7 then some ⟨70⟩ else none
  fetchFBAQuorumSet := fun h _ => if h = 9 then some 90 else none
  makeTransactionFromWire := fun t => if t = 5 then some 55 else none
  herderRecvTransaction := fun t => decide (t = 55)
  loadPeers := fun _ => [("1.2.3.4", 100), ("10.20.30.40", 200)]
  hashEnvelope := fun e => e.statement.body * 1000 + e.statement.slotIndex

/-- Like `envW` but the Peer Directory ignores the limit argument and
returns 51 entries. -/
def env51 : Env :=
  { envW with loadPeers := fun _ => List.replicate 51 ("1.2.3.4", 100) }

/-- A freshly accepted session: state CONNECTED, below GOT_HELLO. -/
def pConnected : Peer := Peer.init .ACCEPTOR 0 ""

/-- A session past the handshake. -/
def pGotHello : Peer := { pConnected with mState := .GOT_HELLO }

/-- The session state after one dispatched message (under `envW`),
`assert(false)` aborts aside. -/
def afterMsg (p : Peer) (m : StellarMessage) : Peer :=
  match Peer.recvMessage envW p m with
  | .ok q _ => q
  | .assertFailed => p

/-- Sizes of the address lists of all `Peers` messages sent in a trace. -/
def peersMsgSizes (effs : List Effect) : List Nat :=
  effs.filterMap fun e =>
    match e with
    | .sendMsg (.peers l) => some l.length
    | _ => none

/-- The effect trace of a dispatch outcome. -/
def effectTrace : HandlerResult → List Effect
  | .ok _ effs => effs
  | .assertFailed => []

/-! ### Dotted-quad round-trip: every `Peers` entry `recvPeers` formats
parses back into exactly four octet fields -/

theorem splitDotGo_no_dot (item : List Char) (acc : List Char)
    (h : '.' ∉ item) : splitDotGo item acc = [acc.reverse ++ item] := by
  induction item generalizing acc with
  | nil => simp [splitDotGo]
  | cons c rest ih =>
    have hc : c ≠ '.' := fun e => h (e ▸ List.mem_cons_self c rest)
    have hrest : '.' ∉ rest := fun hm => h (List.mem_cons_of_mem _ hm)
    simp [splitDotGo, hc, ih _ hrest, List.reverse_cons, List.append_assoc]

theorem splitDotGo_dot (item rest : List Char) (acc : List Char)
    (hitem : '.' ∉ item) (hrest : rest ≠ []) :
    splitDotGo (item ++ '.' :: rest) acc =
      (acc.reverse ++ item) :: splitDotGo rest [] := by
  induction item generalizing acc with
  | nil => simp [splitDotGo, hrest]
  | cons c it ih =>
    have hc : c ≠ '.' := fun e => hitem (e ▸ List.mem_cons_self c it)
    have hit : '.' ∉ it := fun hm => hitem (List.mem_cons_of_mem _ hm)
    simp [splitDotGo, hc, ih _ hit, List.reverse_cons, List.append_assoc]

theorem digitChar_ne_dot : ∀ d < 10, Nat.digitChar d ≠ '.' := by decide

theorem toDigitsCore_not_dot (fuel : Nat) :
    ∀ (n : Nat) (acc : List Char), '.' ∉ acc →
      '.' ∉ Nat.toDigitsCore 10 fuel n acc := by
  induction fuel with
  | zero => intro n acc hacc; simpa [Nat.toDigitsCore] using hacc
  | succ f ih =>
    intro n acc hacc
    have hcons : '.' ∉ Nat.digitChar (n % 10) :: acc := by
      intro hm
      rcases List.mem_cons.mp hm with h1 | h2
      · exact digitChar_ne_dot (n % 10) (Nat.mod_lt _ (by norm_num)) h1.symm
      · exact hacc h2
    rw [show Nat.toDigitsCore 10 (f + 1) n acc =
        if n / 10 = 0 then Nat.digitChar (n % 10) :: acc
        else Nat.toDigitsCore 10 f (n / 10) (Nat.digitChar (n % 10) :: acc)
      from rfl]
    by_cases hn : n / 10 = 0
    · rw [if_pos hn]; exact hcons
    · rw [if_neg hn]; exact ih _ _ hcons

theorem toDigits_not_dot (n : Nat) : '.' ∉ Nat.toDigits 10 n := by
  unfold Nat.toDigits
  exact toDigitsCore_not_dot _ _ _ (by simp)

theorem toDigitsCore_ne_nil (fuel : Nat) :
    ∀ (n : Nat) (acc : List Char), acc ≠ [] →
      Nat.toDigitsCore 10 fuel n acc ≠ [] := by
  induction fuel with
  | zero => intro n acc hacc; simpa [Nat.toDigitsCore] using hacc
  | succ f ih =>
    intro n acc hacc
    rw [show Nat.toDigitsCore 10 (f + 1) n acc =
        if n / 10 = 0 then Nat.digitChar (n % 10) :: acc
        else Nat.toDigitsCore 10 f (n / 10) (Nat.digitChar (n % 10) :: acc)
      from rfl]
    by_cases hn : n / 10 = 0
    · rw [if_pos hn]; simp
    · rw [if_neg hn]; exact ih _ _ (by simp)

theorem toDigits_ne_nil (n : Nat) : Nat.toDigits 10 n ≠ [] := by
  rw [show Nat.toDigits 10 n =
      if n / 10 = 0 then [Nat.digitChar (n % 10)]
      else Nat.toDigitsCore 10 n (n / 10) [Nat.digitChar (n % 10)]
    from rfl]
  by_cases hn : n / 10 = 0
  · rw [if_pos hn]; simp
  · rw [if_neg hn]; exact toDigitsCore_ne_nil _ _ _ (by simp)

theorem repr_data (n : Nat) : (Nat.repr n).data = Nat.toDigits 10 n := rfl

theorem ipToStr_data (a : IpArray) :
    (ipToStr a).data =
      Nat.toDigits 10 a.b0 ++ '.' :: (Nat.toDigits 10 a.b1 ++ '.' ::
        (Nat.toDigits 10 a.b2 ++ '.' :: Nat.toDigits 10 a.b3)) := by
  simp [ipToStr, repr_data]

theorem splitDot_ipToStr (a : IpArray) :
    splitDot (ipToStr a).data =
      [Nat.toDigits 10 a.b0, Nat.toDigits 10 a.b1,
       Nat.toDigits 10 a.b2, Nat.toDigits 10 a.b3] := by
  rw [ipToStr_data, splitDot]
  rw [if_neg (by simp)]
  rw [splitDotGo_dot _ _ _ (toDigits_not_dot _) (by simp)]
  rw [splitDotGo_dot _ _ _ (toDigits_not_dot _) (by simp)]
  rw [splitDotGo_dot _ _ _ (toDigits_not_dot _) (toDigits_ne_nil _)]
  rw [splitDotGo_no_dot _ _ (toDigits_not_dot _)]
  simp

/-- Every four-octet array formats to a string that `ipFromStr` accepts:
on the receive side of the peer exchange no entry is malformed. -/
theorem ipFromStr_ipToStr (a : IpArray) : (ipFromStr (ipToStr a)).1 = true := by
  simp [ipFromStr, splitDot_ipToStr]

end StellarPeer

namespace StellarPeer

/-! ### Claim theorems -/

/-- Claim C1: in any session state strictly below GOT_HELLO, receiving any
message whose kind is not Hello moves the session to the terminal Dropped
state via `drop()` and produces no effect at all — in particular zero
outbound messages. -/
theorem recvMessage_gate_drops_silently (env : Env) (p : Peer)
    (sm : StellarMessage)
    (hstate : p.mState.ord < PeerState.GOT_HELLO.ord)
    (hkind : sm.type ≠ .HELLO) :
    Peer.recvMessage env p sm = .ok p.drop [] ∧ p.drop.mState = .DROPPED := by
  constructor
  · unfold Peer.recvMessage
    rw [if_pos ⟨hstate, hkind⟩]
  · rfl

/-- Claim C1, witness: a freshly accepted (CONNECTED) session receiving
GET_PEERS is dropped with an empty effect trace. -/
theorem recvMessage_gate_drops_silently_witness :
    Peer.recvMessage envW pConnected .getPeers = .ok pConnected.drop [] ∧
      pConnected.drop.mState = .DROPPED :=
  recvMessage_gate_drops_silently envW pConnected .getPeers (by decide)
    (by decide)

/-- Claim C2: after the handshake, GetTxSet(H) performs exactly one store
lookup (`fetchTxSet(H, false)`); a hit sends exactly one TX_SET message
carrying the fetched payload and no DONT_HAVE, a miss sends exactly one
DONT_HAVE whose kind is TX_SET and whose hash is H and no TX_SET — and
symmetrically for GetQuorumSet with kind FBA_QUORUMSET. The full ordered
effect trace is given, so all the counts are exact. -/
theorem recvGet_one_lookup_hit_or_miss (env : Env) (p : Peer) (h : Uint256)
    (hstate : p.mState = .GOT_HELLO) :
    Peer.recvMessage env p (.getTxSet h) =
      .ok p (.fetchTxSet h false ::
        (match env.fetchTxSet h false with
         | some ts => [.sendMsg (.txSet ts.toXDR)]
         | none => [.sendMsg (.dontHave .TX_SET h)])) ∧
    Peer.recvMessage env p (.getFBAQuorumSet h) =
      .ok p (.fetchFBAQuorumSet h false ::
        (match env.fetchFBAQuorumSet h false with
         | some q => [.sendMsg (.fbaQuorumSet q)]
         | none => [.sendMsg (.dontHave .FBA_QUORUMSET h)])) := by
  constructor
  · unfold Peer.recvMessage
    rw [if_neg (by simp [hstate, PeerState.ord])]
    rcases hf : env.fetchTxSet h false with _ | ts <;>
      simp [StellarMessage.type, Peer.recvGetTxSet,
        StellarMessage.txSetHash, hf, sendDontHave]
  · unfold Peer.recvMessage
    rw [if_neg (by simp [hstate, PeerState.ord])]
    rcases hf : env.fetchFBAQuorumSet h false with _ | q <;>
      simp [StellarMessage.type, Peer.recvGetFBAQuorumSet,
        StellarMessage.qSetHash, hf, sendDontHave, sendFBAQuorumSet]

/-- Claim C2, witness: under `envW`, hash 7 is a TxSet hit (one TX_SET sent)
and a quorum-set miss (one DONT_HAVE{FBA_QUORUMSET, 7} sent). -/
theorem recvGet_one_lookup_hit_or_miss_witness :
    Peer.recvMessage envW pGotHello (.getTxSet 7) =
      .ok pGotHello (.fetchTxSet 7 false ::
        (match envW.fetchTxSet 7 false with
         | some ts => [.sendMsg (.txSet ts.toXDR)]
         | none => [.sendMsg (.dontHave .TX_SET 7)])) ∧
    Peer.recvMessage envW pGotHello (.getFBAQuorumSet 7) =
      .ok pGotHello (.fetchFBAQuorumSet 7 false ::
        (match envW.fetchFBAQuorumSet 7 false with
         | some q => [.sendMsg (.fbaQuorumSet q)]
         | none => [.sendMsg (.dontHave .FBA_QUORUMSET 7)])) :=
  recvGet_one_lookup_hit_or_miss envW pGotHello 7 (by decide)

/-- Claim C3: for every received FBA_MESSAGE the handler computes the
envelope's content hash, offers (hash, original wire message, slotIndex) to
the Flood Coordinator, and then delivers the envelope to the Herder. The
equation holds for every environment — the Flood Coordinator returns nothing
to the handler, so gateway delivery is unconditional and independent of any
dedup outcome. (The origin-session argument of `recvFloodedMsg` is always
`shared_from_this()`, the receiving session itself.) -/
theorem recvFBAMessage_flood_then_gateway (env : Env) (p : Peer)
    (e : FBAEnvelope) (hstate : p.mState = .GOT_HELLO) :
    Peer.recvMessage env p (.fbaMessage e) =
      .ok p [.recvFloodedMsg (env.hashEnvelope e) (.fbaMessage e)
               e.statement.slotIndex,
             .herderRecvFBAEnvelope e] := by
  unfold Peer.recvMessage
  rw [if_neg (by simp [hstate, PeerState.ord])]
  simp [StellarMessage.type, Peer.recvFBAMessage, StellarMessage.fbaEnvelope]

/-- Claim C3, witness: a concrete envelope is both offered to the Flood
Coordinator and delivered to the Herder. -/
theorem recvFBAMessage_flood_then_gateway_witness :
    Peer.recvMessage envW pGotHello (.fbaMessage ⟨⟨3, 4⟩, 0⟩) =
      .ok pGotHello
        [.recvFloodedMsg (envW.hashEnvelope ⟨⟨3, 4⟩, 0⟩)
           (.fbaMessage ⟨⟨3, 4⟩, 0⟩) (3 : Nat),
         .herderRecvFBAEnvelope ⟨⟨3, 4⟩, 0⟩] :=
  recvFBAMessage_flood_then_gateway envW pGotHello ⟨⟨3, 4⟩, 0⟩ (by decide)

/-- Claim C4: when a received TRANSACTION deserializes successfully, the
original wire message is rebroadcast via the Flood Coordinator
(`broadcastMessage`) exactly when the Herder's admission check accepts;
on rejection the trace holds the admission call only, with no rebroadcast. -/
theorem recvTransaction_rebroadcast_iff_accepted (env : Env) (p : Peer)
    (wire : TransactionEnvelope) (tx : TransactionFrame)
    (hstate : p.mState = .GOT_HELLO)
    (hdeser : env.makeTransactionFromWire wire = some tx) :
    Peer.recvMessage env p (.transaction wire) =
      .ok p (.herderRecvTransaction tx ::
        (if env.herderRecvTransaction tx
         then [.broadcastMessage (.transaction wire)] else [])) ∧
    (Effect.broadcastMessage (.transaction wire) ∈
        (Effect.herderRecvTransaction tx ::
          (if env.herderRecvTransaction tx
           then [Effect.broadcastMessage (.transaction wire)] else [])) ↔
      env.herderRecvTransaction tx = true) := by
  constructor
  · unfold Peer.recvMessage
    rw [if_neg (by simp [hstate, PeerState.ord])]
    cases hacc : env.herderRecvTransaction tx <;>
      simp [StellarMessage.type, Peer.recvTransaction,
        StellarMessage.transactionBody, hdeser, hacc]
  · cases hacc : env.herderRecvTransaction tx <;> simp [hacc]

/-- Claim C4, witness: wire payload 5 deserializes to transaction 55, the
Herder admits it, and the original envelope is rebroadcast. -/
theorem recvTransaction_rebroadcast_iff_accepted_witness :
    Peer.recvMessage envW pGotHello (.transaction 5) =
      .ok pGotHello (.herderRecvTransaction 55 ::
        (if envW.herderRecvTransaction 55
         then [.broadcastMessage (.transaction 5)] else [])) ∧
    (Effect.broadcastMessage (.transaction 5) ∈
        (Effect.herderRecvTransaction 55 ::
          (if envW.herderRecvTransaction 55
           then [Effect.broadcastMessage (.transaction 5)] else [])) ↔
      envW.herderRecvTransaction 55 = true) :=
  recvTransaction_rebroadcast_iff_accepted envW pGotHello 5 55 (by decide)
    (by decide)

end StellarPeer

namespace StellarPeer

/-- Claim C5, counterexample: after a first Hello set
mRemoteProtocolVersion to 1, a second received Hello overwrites it with 2 —
`recvHello` reassigns the remote identity fields unconditionally and the
dispatch gate never blocks a HELLO, so the fields are NOT immutable after
the first Hello. -/
theorem second_hello_mutates_identity :
    (afterMsg (afterMsg pConnected (.hello ⟨1, "a", 5⟩))
        (.hello ⟨2, "b", 6⟩)).mRemoteProtocolVersion = 2 ∧
    (afterMsg pConnected (.hello ⟨1, "a", 5⟩)).mRemoteProtocolVersion = 1 ∧
    (2 : Nat) ≠ 1 := by decide

/-- Claim C5, amended: every received Hello — first or later, in any session
state — assigns all three remote identity fields from that Hello's payload
(and sets the state to GOT_HELLO); the fields therefore always hold the most
recent Hello's values, and a second Hello leaves them unchanged only when it
repeats the first one's values. -/
theorem recvHello_assigns_identity_every_time (env : Env) (p : Peer)
    (hb : HelloBody) :
    Peer.recvMessage env p (.hello hb) =
      .ok { p with
              mRemoteProtocolVersion := hb.protocolVersion
              mRemoteVersion := hb.versionStr
              mRemoteListeningPort := hb.port
              mState := .GOT_HELLO } [] := by
  unfold Peer.recvMessage
  rw [if_neg (by simp [StellarMessage.type])]
  simp [StellarMessage.type, Peer.recvHello, StellarMessage.helloBody]

/-- Claim C6, counterexample: `sendPeers` sizes the Peers message to
whatever the directory returned, with no cap of its own — when `loadPeers`
ignores its limit argument and yields 51 entries, the reply to GET_PEERS
carries 51 > 50 entries. -/
theorem peers_reply_exceeds_cap_when_directory_overdelivers :
    peersMsgSizes (effectTrace (Peer.recvMessage env51 pGotHello .getPeers)) =
      [51] ∧ ¬((51 : Nat) ≤ 50) := by decide

/-- Claim C6, amended: the Peers message built for GET_PEERS has exactly one
entry per element of the `loadPeers(50)` result; whenever the Peer Directory
honors the limit of 50 passed to it, the reply therefore has at most 50
entries. -/
theorem sendPeers_entry_count_matches_directory (env : Env) (p : Peer)
    (hstate : p.mState = .GOT_HELLO)
    (hdir : (env.loadPeers 50).length ≤ 50) :
    Peer.recvMessage env p .getPeers =
      .ok p [.loadPeers 50,
             .sendMsg (.peers ((env.loadPeers 50).map mkPeerEntry))] ∧
    ((env.loadPeers 50).map mkPeerEntry).length ≤ 50 := by
  constructor
  · unfold Peer.recvMessage
    rw [if_neg (by simp [hstate, PeerState.ord])]
    simp [StellarMessage.type, Peer.recvGetPeers, sendPeers]
  · simpa using hdir

/-- Claim C6 amended, witness: `envW`'s directory returns two entries and
the reply carries exactly those two. -/
theorem sendPeers_entry_count_matches_directory_witness :
    Peer.recvMessage envW pGotHello .getPeers =
      .ok pGotHello [.loadPeers 50,
             .sendMsg (.peers ((envW.loadPeers 50).map mkPeerEntry))] ∧
    ((envW.loadPeers 50).map mkPeerEntry).length ≤ 50 :=
  sendPeers_entry_count_matches_directory envW pGotHello (by decide)
    (by decide)

/-- Claim C7: a received Peers message produces exactly one `addPeer` call
per entry (in order, with the entry's dotted-quad string and port), the
session state is untouched (in particular not dropped), and no entry is
malformed: every entry's four wire octets format to a string that
`ipFromStr` parses back into exactly four octet fields, so the skip-clause
for malformed entries holds vacuously on the receive side. -/
theorem recvPeers_one_addPeer_per_entry (env : Env) (p : Peer)
    (l : List PeerAddress) (hstate : p.mState = .GOT_HELLO) :
    Peer.recvMessage env p (.peers l) =
      .ok p (l.map fun a => .addPeer (ipToStr a.ip) a.port) ∧
    (l.all fun a => (ipFromStr (ipToStr a.ip)).1) = true := by
  constructor
  · unfold Peer.recvMessage
    rw [if_neg (by simp [hstate, PeerState.ord])]
    simp [StellarMessage.type, Peer.recvPeers, StellarMessage.peersList]
  · simp only [List.all_eq_true]
    intro a _
    exact ipFromStr_ipToStr a.ip

/-- Claim C7, witness: two concrete entries each yield one `addPeer` call
and both round-trip through `ipFromStr`. -/
theorem recvPeers_one_addPeer_per_entry_witness :
    Peer.recvMessage envW pGotHello
        (.peers [⟨⟨1, 2, 3, 4⟩, 100⟩, ⟨⟨255, 0, 0, 1⟩, 0⟩]) =
      .ok pGotHello
        (([⟨⟨1, 2, 3, 4⟩, 100⟩, ⟨⟨255, 0, 0, 1⟩, 0⟩] :
            List PeerAddress).map fun a => .addPeer (ipToStr a.ip) a.port) ∧
    (([⟨⟨1, 2, 3, 4⟩, 100⟩, ⟨⟨255, 0, 0, 1⟩, 0⟩] :
        List PeerAddress).all fun a => (ipFromStr (ipToStr a.ip)).1) = true :=
  recvPeers_one_addPeer_per_entry envW pGotHello
    [⟨⟨1, 2, 3, 4⟩, 100⟩, ⟨⟨255, 0, 0, 1⟩, 0⟩] (by decide)

/-- Claim C8: past the handshake, a JSON_TRANSACTION message hits
`assert(false)`: the dispatch outcome is the whole-process assertion
failure, not the per-session drop outcome (`ok` with a dropped session). -/
theorem json_transaction_is_process_fatal (env : Env) (p : Peer) (j : Nat)
    (hstate : p.mState = .GOT_HELLO) :
    Peer.recvMessage env p (.jsonTransaction j) = .assertFailed ∧
    Peer.recvMessage env p (.jsonTransaction j) ≠ .ok p.drop [] := by
  have heq : Peer.recvMessage env p (.jsonTransaction j) = .assertFailed := by
    unfold Peer.recvMessage
    rw [if_neg (by simp [hstate, PeerState.ord])]
    rfl
  exact ⟨heq, by simp [heq]⟩

/-- Claim C8, witness: concrete session past handshake, JSON_TRANSACTION
payload 0. -/
theorem json_transaction_is_process_fatal_witness :
    Peer.recvMessage envW pGotHello (.jsonTransaction 0) = .assertFailed ∧
    Peer.recvMessage envW pGotHello (.jsonTransaction 0) ≠
      .ok pGotHello.drop [] :=
  json_transaction_is_process_fatal envW pGotHello 0 (by decide)

/-- Claim C9: `sendGetQuorumSet(h)` emits exactly one GET_FBA_QUORUMSET
message whose single contentHash field equals h; that message's kind is
GET_FBA_QUORUMSET, its `qSetHash` accessor — the one the receiving handler
reads — yields h, and `recvGetFBAQuorumSet` indeed starts by looking up
exactly that hash in the store (`fetchFBAQuorumSet(h, false)` is the first
effect in every environment). -/
theorem sendGetQuorumSet_contentHash_roundtrip (h : Uint256) :
    sendGetQuorumSet h = [.sendMsg (.getFBAQuorumSet h)] ∧
    (StellarMessage.getFBAQuorumSet h).type = .GET_FBA_QUORUMSET ∧
    (StellarMessage.getFBAQuorumSet h).qSetHash = h ∧
    ∀ (env : Env) (p : Peer),
      (Peer.recvGetFBAQuorumSet env p (.getFBAQuorumSet h)).2.head? =
        some (.fetchFBAQuorumSet h false) := by
  refine ⟨rfl, rfl, rfl, fun env p => ?_⟩
  rcases hq : env.fetchFBAQuorumSet h false with _ | q <;>
    simp [Peer.recvGetFBAQuorumSet, StellarMessage.qSetHash, hq,
      sendFBAQuorumSet, sendDontHave]

/-- Claim C10: a TRANSACTION whose payload fails to deserialize
(`makeTransactionFromWire` returns null) has no effect at all: same session
state (not dropped), empty effect trace — no send, no Herder call, no Flood
Coordinator call. -/
theorem recvTransaction_deser_failure_is_noop (env : Env) (p : Peer)
    (wire : TransactionEnvelope) (hstate : p.mState = .GOT_HELLO)
    (hfail : env.makeTransactionFromWire wire = none) :
    Peer.recvMessage env p (.transaction wire) = .ok p [] := by
  unfold Peer.recvMessage
  rw [if_neg (by simp [hstate, PeerState.ord])]
  simp [StellarMessage.type, Peer.recvTransaction,
    StellarMessage.transactionBody, hfail]

/-- Claim C10, witness: wire payload 6 does not deserialize under `envW`
and the handler does nothing. -/
theorem recvTransaction_deser_failure_is_noop_witness :
    Peer.recvMessage envW pGotHello (.transaction 6) = .ok pGotHello [] :=
  recvTransaction_deser_failure_is_noop envW pGotHello 6 (by decide)
    (by decide)

end StellarPeer
